import Mathlib

/-!
Shallow embedding of the `msal_bearer` package (equinor/msal-bearer):
`src/msal_bearer/bearerauth.py` and `src/msal_bearer/authenticator.py`.

External effects (MSAL network calls, the on-disk token cache, the OS
environment) are modelled by explicit oracle/environment records passed to
the embedded functions; each function also returns a trace recording which
external calls it made, so that properties about "which path was invoked"
can be stated and proved.
-/

namespace MsalBearer

/-- A Python value as it may appear in the token-shaped data this package
touches: a string, an integer, or `None`. -/
inductive PyVal where
  | pstr (s : String)
  | pint (n : Int)
  | pnone
  deriving DecidableEq, Repr

/-- Python truthiness of a `PyVal` (`""`, `0` and `None` are falsy). -/
def PyVal.truthy : PyVal → Bool
  | .pstr s => s ≠ ""
  | .pint n => n ≠ 0
  | .pnone => false

/-! ## Module-level functions of `bearerauth.py` -/

/-- The module default for the global `_token_location`. -/
def default_token_location : String := "token_cache.bin"

/-- The possible Python arguments to `set_token_location`: a string, or some
non-string value. -/
inductive LocInput where
  | isStr (s : String)
  | notStr
  deriving DecidableEq, Repr

/-- Python exceptions raised by the embedded functions. -/
inductive PyErr where
  | valueError (msg : String)
  | typeError (msg : String)
  | indexError
  deriving DecidableEq, Repr

/-- `set_token_location` from `bearerauth.py`: given the argument and the
current value of the global `_token_location`, returns the new value of the
global together with the exception raised, if any.  A string is accepted
exactly when its length exceeds 4 and it contains `"."`; otherwise
`ValueError` is raised; a non-string raises `TypeError`; on a raise the
global keeps its current value. -/
def set_token_location (location : LocInput) (current : String) :
    String × Option PyErr :=
  match location with
  | .isStr s =>
      if s.length > 4 ∧ '.' ∈ s.data then (s, none)
      else (current, some (.valueError ("Invalid location string " ++ s)))
  | .notStr => (current, some (.typeError "Input location shall be a string."))

/-- `get_token_location` from `bearerauth.py`: reads the global. -/
def get_token_location (current : String) : String := current

/-- The fixed probe order of `get_login_name` in `bearerauth.py`. -/
def env_names : List String := ["LOGNAME", "USER", "LNAME", "USERNAME"]

/-- The loop body of `get_login_name`: return the value of the first name
bound in the environment (`os.getenv(name) is not None`), even when that
value is the empty string; `none` when no name is bound. -/
def lookupFirstBound (getenv : String → Option String) :
    List String → Option String
  | [] => none
  | n :: rest =>
      match getenv n with
      | some v => some v
      | none => lookupFirstBound getenv rest

/-- `get_login_name` from `bearerauth.py`: probes `LOGNAME`, `USER`, `LNAME`,
`USERNAME` in order and returns the first value that is set (not `None` in
Python), or `None` when the loop falls through. -/
def get_login_name (getenv : String → Option String) : Option String :=
  lookupFirstBound getenv env_names

/-- `get_user_name` from `bearerauth.py`: with the process-global `_username`
and the OS environment as explicit arguments.  An empty (falsy) global falls
back to `get_login_name`. -/
def get_user_name (username : String) (getenv : String → Option String) :
    Option String :=
  if username = "" then get_login_name getenv else some username

/-- Spec-language variant for comparison with `get_login_name` (C9): the
first value among the four variables that is set *and non-empty*, or none. -/
def spec_first_nonempty (getenv : String → Option String) :
    List String → Option String
  | [] => none
  | n :: rest =>
      match getenv n with
      | some v => if v ≠ "" then some v else spec_first_nonempty getenv rest
      | none => spec_first_nonempty getenv rest

/-- `get_tenant_authority` from `bearerauth.py`. -/
def get_tenant_authority (tenant_id : String) : String :=
  "https://login.microsoftonline.com/" ++ tenant_id

/-! ## The `BearerAuth` carrier -/

/-- A Python dict that may be passed to `BearerAuth.__init__`: the value
under the `"access_result"` key if that key is present, plus the number of
other keys (kept only for dict truthiness/shape). -/
structure BADict where
  access_result : Option PyVal
  otherKeys : Nat
  deriving DecidableEq, Repr

/-- The `token` argument of `BearerAuth.__init__` (`Union[dict, str]`). -/
inductive BAInput where
  | baStr (s : String)
  | baDict (d : BADict)
  deriving DecidableEq, Repr

/-- The value held in `self.token` after construction: either a plain value
or a dict that was not unwrapped (no `"access_result"` key). -/
inductive TokField where
  | fVal (v : PyVal)
  | fDict (d : BADict)
  deriving DecidableEq, Repr

/-- Whether a `TokField` is a plain (possibly empty) string. -/
def TokField.isPlainString : TokField → Bool
  | .fVal (.pstr _) => true
  | _ => false

/-- Whether a `TokField` is a non-empty plain string. -/
def TokField.isNonEmptyString : TokField → Bool
  | .fVal (.pstr s) => s ≠ ""
  | _ => false

/-- The carrier object of `bearerauth.py`. -/
structure BearerAuth where
  token : TokField
  deriving DecidableEq, Repr

/-- `BearerAuth.__init__`: a dict carrying an `"access_result"` key is
unwrapped one level; every other input is stored as given. -/
def BearerAuth.init (token : BAInput) : BearerAuth :=
  match token with
  | .baStr s => ⟨.fVal (.pstr s)⟩
  | .baDict d =>
      match d.access_result with
      | some v => ⟨.fVal v⟩
      | none => ⟨.fDict d⟩

/-! ## `BearerAuth.get_auth` -/

/-- A structured MSAL response dict: the value of `"access_token"` if that
key is present, the value of `"error_codes"` if present, and the number of
further keys (read only for Python dict truthiness). -/
structure MsalDict where
  access_token : Option String
  error_codes : Option (List Int)
  extraKeys : Nat
  deriving DecidableEq, Repr

/-- Python truthiness of the dict: non-empty. -/
def MsalDict.truthy (d : MsalDict) : Bool :=
  d.access_token.isSome || d.error_codes.isSome || d.extraKeys ≠ 0

/-- A value the MSAL acquisition calls may return: `None`, a dict, or some
other (non-dict) value such as a string. -/
inductive PyRes where
  | pyNone
  | pyDict (d : MsalDict)
  | pyStr (s : String)
  deriving DecidableEq, Repr

/-- Python truthiness of an acquisition result. -/
def PyRes.truthy : PyRes → Bool
  | .pyNone => false
  | .pyDict d => d.truthy
  | .pyStr s => s ≠ ""

/-- Oracle for one run of `BearerAuth.get_auth`: whether the first
open-cache-and-list-accounts attempt raises (and with what payload), whether
the cache file exists on disk, whether the second attempt raises, the
accounts the (working) cache yields, and the responses the provider returns
to `acquire_token_silent` / `acquire_token_interactive` if called. -/
structure GetAuthEnv where
  firstAttemptFails : Option String
  cacheFileExists : Bool
  secondAttemptFails : Option String
  accounts : List String
  silent : PyRes
  interactive : PyRes
  deriving DecidableEq, Repr

/-- Trace of a run of `get_auth`: how many open-cache-and-list-accounts
attempts were made, whether the cache file was deleted, how many times
`acquire_token_silent` ran, and the `domain_hint` of each
`acquire_token_interactive` call. -/
structure GetAuthTrace where
  openAttempts : Nat
  deletedCacheFile : Bool
  silentCalls : Nat
  interactiveCalls : List String
  deriving DecidableEq, Repr

/-- Outcome of `get_auth`: a carrier, the terminal
`Exception("Failed authenticating")`, or an exception propagated unchanged
from the second cache attempt. -/
inductive GetAuthOutcome where
  | ok (b : BearerAuth)
  | authError (msg : String)
  | raised (e : String)
  deriving DecidableEq, Repr

/-- The fallback test of `get_auth` (line 213): the silent result is `None`,
or is a dict with an `"error_codes"` key whose list contains `50173`. -/
def needsInteractive : PyRes → Bool
  | .pyNone => true
  | .pyDict d =>
      match d.error_codes with
      | some l => l.contains (50173 : Int)
      | none => false
  | .pyStr _ => false

/-- The acquisition phase of `get_auth` once a working cache exists (lines
207–223): silent acquisition against the first account when at least one
account is found, then the interactive fallback.  Returns the final value of
the `result` variable, the number of silent calls, and the domain hints of
the interactive calls. -/
def acquireResult (tenantID : String) (env : GetAuthEnv) :
    PyRes × Nat × List String :=
  let r0 := if env.accounts.isEmpty then PyRes.pyNone else env.silent
  let sc := if env.accounts.isEmpty then 0 else 1
  if needsInteractive r0 then (env.interactive, sc, [tenantID])
  else (r0, sc, [])

/-- The final success test of `get_auth` (line 225): the result is truthy,
is a dict, has an `"access_token"` key, and that value is truthy. -/
def finalToken : PyRes → Option String
  | .pyDict d =>
      if d.truthy then
        match d.access_token with
        | some t => if t ≠ "" then some t else none
        | none => none
      else none
  | _ => none

/-- `BearerAuth.get_auth` from `bearerauth.py`, with the external world as an
explicit oracle.  Returns the outcome together with the call trace. -/
def get_auth (tenantID : String) (env : GetAuthEnv) :
    GetAuthOutcome × GetAuthTrace :=
  let finish := fun (attempts : Nat) (deleted : Bool) =>
    let (r, sc, ic) := acquireResult tenantID env
    match finalToken r with
    | some t =>
        (GetAuthOutcome.ok (BearerAuth.init (.baStr t)),
         ⟨attempts, deleted, sc, ic⟩)
    | none =>
        (GetAuthOutcome.authError "Failed authenticating",
         ⟨attempts, deleted, sc, ic⟩)
  match env.firstAttemptFails with
  | none => finish 1 false
  | some _ =>
      let deleted := env.cacheFileExists
      match env.secondAttemptFails with
      | some e => (GetAuthOutcome.raised e, ⟨2, deleted, 0, []⟩)
      | none => finish 2 deleted

/-! ## `authenticator.py` -/

/-- Python truthiness for an `Optional[str]` field: `None` and `""` are
falsy. -/
def optTruthy : Option String → Bool
  | some s => s ≠ ""
  | none => false

/-- The state of an `Authenticator` object relevant to `get_token`:
`tenant_id`, `client_id`, `client_secret` (each `Optional[str]`), the
pre-set `token` (plain `str`, `""` by default) and the stored `scopes` list
(`[]` when none configured). -/
structure Authenticator where
  tenant_id : Option String
  client_id : Option String
  client_secret : Option String
  token : String
  scopes : List String
  deriving DecidableEq, Repr

/-- `Authenticator.get_client_id`: raises `ValueError` on a falsy client
id. -/
def Authenticator.get_client_id (a : Authenticator) : Except PyErr String :=
  if optTruthy a.client_id then .ok (a.client_id.getD "")
  else .error (.valueError "Client ID is not set")

/-- `Authenticator.get_tenant_id`: raises `ValueError` on a falsy tenant
id. -/
def Authenticator.get_tenant_id (a : Authenticator) : Except PyErr String :=
  if optTruthy a.tenant_id then .ok (a.tenant_id.getD "")
  else .error (.valueError "Tenant ID is not set")

/-- `Authenticator.get_scope`: the configured scopes, or
`[f"{client_id}/.default"]` when none are configured (which requires the
client id to be set). -/
def Authenticator.get_scope (a : Authenticator) : Except PyErr (List String) :=
  if a.scopes.isEmpty then
    (a.get_client_id).map (fun cid => [cid ++ "/.default"])
  else .ok a.scopes

/-- The response of `ConfidentialClientApplication.acquire_token_for_client`
as read by `get_token`: the values under `"access_token"`,
`"error_description"` and `"error"` when those keys are present. -/
structure ConfDict where
  access_token : Option String
  error_description : Option String
  error : Option String
  deriving DecidableEq, Repr

/-- The message built at `authenticator.py` line 95 when the exchange
response lacks `"access_token"`: the `error_description` value when that key
is present, else the `error` value (a missing `error` key renders as the
string `"None"`). -/
def confErrMsg (d : ConfDict) : String :=
  "Could not get token: " ++
    (match d.error_description with
     | some s => s
     | none =>
         match d.error with
         | some s => s
         | none => "None")

/-- Oracle for one call of `Authenticator.get_token`: the exchange response
(`none` models Python `None`), the outcome of `get_public_app_token`, and
the token the ambient credential chain yields. -/
structure AuthTokenEnv where
  confidential : Option ConfDict
  publicResult : Except PyErr String
  azTokenValue : String
  deriving Repr

/-- Trace of one call of `get_token`: the scope lists passed to the
confidential-client exchange, the number of delegations to
`get_public_app_token`, and the `(scope, tenant hint)` of each ambient
credential lookup. -/
structure AuthTrace where
  confidentialCalls : List (List String)
  publicCalls : Nat
  azCalls : List (String × String)
  deriving DecidableEq, Repr

/-- The empty trace: no external call made. -/
def AuthTrace.empty : AuthTrace := ⟨[], 0, []⟩

/-- `Authenticator.get_az_token`: takes the first element of the scope list
and queries the ambient credential chain with the tenant id as hint. -/
def Authenticator.get_az_token (a : Authenticator) (scope : List String)
    (env : AuthTokenEnv) : Except PyErr String × AuthTrace :=
  match scope with
  | [] => (.error .indexError, AuthTrace.empty)
  | s :: _ =>
      match a.get_tenant_id with
      | .error e => (.error e, AuthTrace.empty)
      | .ok tid =>
          (.ok env.azTokenValue, ⟨[], 0, [(s, tid)]⟩)

/-- `Authenticator.get_token` from `authenticator.py`: pre-set token first;
else default the scopes; then the confidential-client exchange when a
client secret is set; else delegate to the public-app path when a client id
is set; else the ambient lookup.  Returns the outcome and the call trace. -/
def Authenticator.get_token (a : Authenticator)
    (scopesArg : Option (List String)) (env : AuthTokenEnv) :
    Except PyErr String × AuthTrace :=
  if a.token ≠ "" then (.ok a.token, AuthTrace.empty)
  else
    match (match scopesArg with
           | some s => Except.ok s
           | none => a.get_scope) with
    | .error e => (.error e, AuthTrace.empty)
    | .ok scopes =>
        if optTruthy a.client_secret then
          match a.get_client_id with
          | .error e => (.error e, AuthTrace.empty)
          | .ok _ =>
              match a.get_tenant_id with
              | .error e => (.error e, AuthTrace.empty)
              | .ok _ =>
                  let tr : AuthTrace := ⟨[scopes], 0, []⟩
                  match env.confidential with
                  | none => (.error (.valueError "Could not get token."), tr)
                  | some d =>
                      match d.access_token with
                      | some t => (.ok t, tr)
                      | none => (.error (.valueError (confErrMsg d)), tr)
        else if optTruthy a.client_id then
          (env.publicResult, ⟨[], 1, []⟩)
        else
          match a.get_scope with
          | .error e => (.error e, AuthTrace.empty)
          | .ok sc => a.get_az_token sc env

/-! ## Theorems -/

/-- C10: `set_token_location` updates the process-global token-cache
location if and only if its argument is a string of length greater than 4
containing `"."`; any other string raises `ValueError`, a non-string raises
`TypeError`, and in every raising case the global is left unchanged. -/
theorem set_token_location_spec (location : LocInput) (g : String) :
    (((set_token_location location g).2 = none) ↔
      (∃ s, location = .isStr s ∧ s.length > 4 ∧ '.' ∈ s.data)) ∧
    (∀ s, location = .isStr s → s.length > 4 ∧ '.' ∈ s.data →
      set_token_location location g = (s, none)) ∧
    (∀ s, location = .isStr s → ¬(s.length > 4 ∧ '.' ∈ s.data) →
      set_token_location location g =
        (g, some (.valueError ("Invalid location string " ++ s)))) ∧
    (location = .notStr →
      set_token_location location g =
        (g, some (.typeError "Input location shall be a string."))) := by
  cases location with
  | isStr s =>
      by_cases hv : s.length > 4 ∧ '.' ∈ s.data
      · simp [set_token_location, hv]
      · simp [set_token_location, hv]
        intro h4 hc
        exact hv ⟨h4, hc⟩
  | notStr => simp [set_token_location]

/-- Witness for C10: the valid location `"a.bcd"` is accepted and becomes
the new global. -/
theorem set_token_location_spec_witness :
    set_token_location (.isStr "a.bcd") "token_cache.bin" = ("a.bcd", none) :=
  (set_token_location_spec (.isStr "a.bcd") "token_cache.bin").2.1 "a.bcd" rfl
    (by refine ⟨by decide, ?_⟩; decide)

/-- Counterexample for C9: with `LOGNAME` set to the empty string and `USER`
set to `"alice"`, `get_user_name` (with no global username) returns the
empty string, not the first non-empty value `"alice"` that the claim
requires. -/
theorem get_user_name_counterexample :
    get_user_name ""
        (fun n => if n = "LOGNAME" then some "" else
          if n = "USER" then some "alice" else none) = some "" ∧
    spec_first_nonempty
        (fun n => if n = "LOGNAME" then some "" else
          if n = "USER" then some "alice" else none) env_names = some "alice" ∧
    (some "" : Option String) ≠ some "alice" := by
  refine ⟨rfl, rfl, by decide⟩

/-- C9 (amended): when no process-global username has been set,
`get_user_name` returns the value of the first environment variable among
`LOGNAME`, `USER`, `LNAME`, `USERNAME` that is set — even when that value is
the empty string — or no value when none of the four are set. -/
theorem get_user_name_first_set (getenv : String → Option String) :
    get_user_name "" getenv =
      (if (getenv "LOGNAME").isSome then getenv "LOGNAME"
       else if (getenv "USER").isSome then getenv "USER"
       else if (getenv "LNAME").isSome then getenv "LNAME"
       else if (getenv "USERNAME").isSome then getenv "USERNAME"
       else none) := by
  simp only [get_user_name, get_login_name, env_names, lookupFirstBound,
    if_pos rfl]
  rcases h1 : getenv "LOGNAME" with _ | v1 <;>
    rcases h2 : getenv "USER" with _ | v2 <;>
      rcases h3 : getenv "LNAME" with _ | v3 <;>
        rcases h4 : getenv "USERNAME" with _ | v4 <;>
          simp [lookupFirstBound, h1, h2, h3, h4]

/-- Counterexample for C8: `BearerAuth` constructed from the raw empty
string succeeds with an empty internal token, and constructed from a dict
whose `access_result` is the integer `5` its internal token is not a plain
string. -/
theorem bearer_init_counterexample :
    (BearerAuth.init (.baStr "")).token = .fVal (.pstr "") ∧
    (BearerAuth.init (.baStr "")).token.isNonEmptyString = false ∧
    (BearerAuth.init (.baDict ⟨some (.pint 5), 0⟩)).token.isPlainString
      = false := by
  decide

/-- C8 (amended): construction from a raw string stores exactly that string
(a plain string, possibly empty); construction from a dict containing an
`access_result` key stores the unwrapped value (a plain string exactly when
that value is a string); no emptiness check is performed — the token is
non-empty exactly when the input string is. -/
theorem bearer_init_token (s : String) (d : BADict) (v : PyVal) :
    ((BearerAuth.init (.baStr s)).token = .fVal (.pstr s)) ∧
    ((BearerAuth.init (.baStr s)).token.isPlainString = true) ∧
    ((BearerAuth.init (.baStr s)).token.isNonEmptyString = (s ≠ "" : Bool)) ∧
    (d.access_result = some v →
      (BearerAuth.init (.baDict d)).token = .fVal v) := by
  refine ⟨rfl, rfl, by simp [BearerAuth.init, TokField.isNonEmptyString], ?_⟩
  intro h
  simp [BearerAuth.init, h]

/-- Witness for C8 (amended) at concrete inputs: a dict with
`access_result = "x"` unwraps to the plain string `"x"`. -/
theorem bearer_init_token_witness :
    (BearerAuth.init (.baDict ⟨some (.pstr "x"), 0⟩)).token
      = .fVal (.pstr "x") :=
  (bearer_init_token "tok" ⟨some (.pstr "x"), 0⟩ (.pstr "x")).2.2.2 rfl

/-- C7: with a non-empty pre-set token, `get_token` returns exactly that
string, makes no external call, and its outcome is independent of the
oracle (network) entirely. -/
theorem preset_token_identity (a : Authenticator)
    (scopesArg : Option (List String)) (env env2 : AuthTokenEnv)
    (h : a.token ≠ "") :
    a.get_token scopesArg env = (.ok a.token, AuthTrace.empty) ∧
    a.get_token scopesArg env = a.get_token scopesArg env2 := by
  constructor <;> simp [Authenticator.get_token, h]

/-- Witness for C7: a concrete authenticator with pre-set token `"T"`,
evaluated against two different oracles. -/
theorem preset_token_identity_witness :
    (⟨none, none, none, "T", []⟩ : Authenticator).get_token none
        ⟨none, .ok "p", "az"⟩ = (.ok "T", AuthTrace.empty) :=
  (preset_token_identity ⟨none, none, none, "T", []⟩ none
    ⟨none, .ok "p", "az"⟩ ⟨none, .error .indexError, "bz"⟩ (by decide)).1

/-- Helper: when the client id is set, `get_scope` never raises. -/
theorem get_scope_isOk (a : Authenticator)
    (hCid : optTruthy a.client_id = true) :
    ∃ sc, a.get_scope = Except.ok sc := by
  by_cases h : a.scopes.isEmpty <;>
    simp [Authenticator.get_scope, Authenticator.get_client_id, hCid, h,
      Except.map]

/-- Helper: the confidential-client branch of `get_token`, run for some
scope list, with the outcome determined by the oracle's exchange
response. -/
theorem get_token_confidential_run (a : Authenticator)
    (scopesArg : Option (List String)) (env : AuthTokenEnv)
    (hTok : a.token = "") (hSec : optTruthy a.client_secret = true)
    (hCid : optTruthy a.client_id = true)
    (hTid : optTruthy a.tenant_id = true) :
    ∃ scopes, a.get_token scopesArg env =
      (match env.confidential with
       | none =>
           (.error (.valueError "Could not get token."),
             (⟨[scopes], 0, []⟩ : AuthTrace))
       | some d =>
           (match d.access_token with
            | some t => (.ok t, (⟨[scopes], 0, []⟩ : AuthTrace))
            | none =>
                (.error (.valueError (confErrMsg d)),
                  (⟨[scopes], 0, []⟩ : AuthTrace)))) := by
  cases scopesArg with
  | some s =>
      refine ⟨s, ?_⟩
      simp [Authenticator.get_token, hTok, hSec, hCid, hTid,
        Authenticator.get_client_id, Authenticator.get_tenant_id]
  | none =>
      obtain ⟨sc, hsc⟩ := get_scope_isOk a hCid
      refine ⟨sc, ?_⟩
      simp [Authenticator.get_token, hTok, hSec, hCid, hTid, hsc,
        Authenticator.get_client_id, Authenticator.get_tenant_id]

/-- C5: `get_token` selects exactly one strategy by first match, with no
combination: a pre-set token is returned as-is with no call; else with a
client secret the confidential exchange alone runs; else with a client id
the public-app path alone is delegated to; else the ambient lookup alone
runs, against the first configured scope with the tenant id as hint. -/
theorem get_token_first_match (a : Authenticator)
    (scopesArg : Option (List String)) (env : AuthTokenEnv) :
    (a.token ≠ "" →
      a.get_token scopesArg env = (.ok a.token, AuthTrace.empty)) ∧
    (a.token = "" → optTruthy a.client_secret = true →
      optTruthy a.client_id = true → optTruthy a.tenant_id = true →
      ∃ s, (a.get_token scopesArg env).2 = ⟨[s], 0, []⟩) ∧
    (a.token = "" → optTruthy a.client_secret = false →
      optTruthy a.client_id = true →
      a.get_token scopesArg env = (env.publicResult, ⟨[], 1, []⟩)) ∧
    (a.token = "" → optTruthy a.client_secret = false →
      optTruthy a.client_id = false → a.scopes ≠ [] →
      optTruthy a.tenant_id = true →
      a.get_token scopesArg env =
        (.ok env.azTokenValue,
         ⟨[], 0, [(a.scopes.headI, a.tenant_id.getD "")]⟩)) := by
  refine ⟨?_, ?_, ?_, ?_⟩
  · intro h
    simp [Authenticator.get_token, h]
  · intro hTok hSec hCid hTid
    obtain ⟨scopes, hrun⟩ :=
      get_token_confidential_run a scopesArg env hTok hSec hCid hTid
    refine ⟨scopes, ?_⟩
    rcases henv : env.confidential with _ | d
    · simp [hrun, henv]
    · rcases hat : d.access_token with _ | t <;> simp [hrun, henv, hat]
  · intro hTok hSec hCid
    cases scopesArg with
    | some s =>
        simp [Authenticator.get_token, hTok, hSec, hCid]
    | none =>
        obtain ⟨sc, hsc⟩ := get_scope_isOk a hCid
        simp [Authenticator.get_token, hTok, hSec, hCid, hsc]
  · intro hTok hSec hCid hScopes hTid
    have hsc : a.get_scope = .ok a.scopes := by
      simp [Authenticator.get_scope, List.isEmpty_iff, hScopes]
    rcases hh : a.scopes with _ | ⟨s0, rest⟩
    · exact absurd hh hScopes
    · have hhead : a.scopes.headI = s0 := by rw [hh]; rfl
      cases scopesArg with
      | some s =>
          simp [Authenticator.get_token, hTok, hSec, hCid, hsc, hh, hhead,
            Authenticator.get_az_token, Authenticator.get_tenant_id, hTid]
      | none =>
          simp [Authenticator.get_token, hTok, hSec, hCid, hsc, hh, hhead,
            Authenticator.get_az_token, Authenticator.get_tenant_id, hTid]

/-- Witness for C5: with no secret and a client id, the public-app path
alone is delegated to. -/
theorem get_token_first_match_witness :
    (⟨some "tid", some "cid", none, "", ["s"]⟩ : Authenticator).get_token
        none ⟨none, .ok "ptok", "az"⟩
      = (.ok "ptok", ⟨[], 1, []⟩) :=
  (get_token_first_match ⟨some "tid", some "cid", none, "", ["s"]⟩ none
    ⟨none, .ok "ptok", "az"⟩).2.2.1 rfl (by decide) (by decide)

/-- C6: with a client secret, no pre-set token (and the client and tenant
ids set, as the exchange requires), a response carrying `access_token`
yields exactly that string, and a response missing it raises the
configuration-class `ValueError` carrying the provider's error
description. -/
theorem confidential_exchange_spec (a : Authenticator)
    (scopesArg : Option (List String)) (env : AuthTokenEnv) (d : ConfDict)
    (hTok : a.token = "") (hSec : optTruthy a.client_secret = true)
    (hCid : optTruthy a.client_id = true)
    (hTid : optTruthy a.tenant_id = true)
    (hEnv : env.confidential = some d) :
    (∀ t, d.access_token = some t → (a.get_token scopesArg env).1 = .ok t) ∧
    (d.access_token = none →
      (a.get_token scopesArg env).1 = .error (.valueError (confErrMsg d))) ∧
    (∀ desc, d.access_token = none → d.error_description = some desc →
      (a.get_token scopesArg env).1 =
        .error (.valueError ("Could not get token: " ++ desc))) := by
  obtain ⟨scopes, hrun⟩ :=
    get_token_confidential_run a scopesArg env hTok hSec hCid hTid
  refine ⟨?_, ?_, ?_⟩
  · intro t ht
    simp [hrun, hEnv, ht]
  · intro ht
    simp [hrun, hEnv, ht]
  · intro desc ht hdesc
    have hmsg : confErrMsg d = "Could not get token: " ++ desc := by
      simp [confErrMsg, hdesc]
    simp [hrun, hEnv, ht, hmsg]

/-- Witness for C6: a concrete confidential-client config whose exchange
response carries `access_token = "TOK"` yields exactly `"TOK"`. -/
theorem confidential_exchange_spec_witness :
    ((⟨some "tid", some "cid", some "sec", "", ["s"]⟩ :
        Authenticator).get_token none
      ⟨some ⟨some "TOK", none, none⟩, .ok "p", "az"⟩).1 = .ok "TOK" :=
  (confidential_exchange_spec ⟨some "tid", some "cid", some "sec", "", ["s"]⟩
    none ⟨some ⟨some "TOK", none, none⟩, .ok "p", "az"⟩
    ⟨some "TOK", none, none⟩ rfl (by decide) (by decide) (by decide)
    rfl).1 "TOK" rfl

/-- Helper: the final success test yields a token exactly for a dict with a
non-empty `access_token` value. -/
theorem finalToken_eq_some (r : PyRes) (t : String) :
    finalToken r = some t ↔
      ∃ d, r = .pyDict d ∧ d.access_token = some t ∧ t ≠ "" := by
  cases r with
  | pyNone => simp [finalToken]
  | pyStr s => simp [finalToken]
  | pyDict d =>
      rcases hat : d.access_token with _ | t0
      · rcases h2 : d.truthy <;> simp [finalToken, hat, h2]
      · have h2 : d.truthy = true := by
          simp [MsalDict.truthy, hat]
        by_cases ht0 : t0 = "" <;> simp [finalToken, hat, h2, ht0] <;>
          aesop

/-- Helper: outside the double-cache-failure case, `get_auth` finishes by
applying the final success test to the acquisition-phase result, and its
trace carries the acquisition phase's silent and interactive calls. -/
theorem get_auth_finish (tenantID : String) (env : GetAuthEnv)
    (h : ¬(env.firstAttemptFails.isSome ∧ env.secondAttemptFails.isSome)) :
    ((get_auth tenantID env).1 =
      (match finalToken (acquireResult tenantID env).1 with
       | some t => .ok (BearerAuth.init (.baStr t))
       | none => .authError "Failed authenticating")) ∧
    (get_auth tenantID env).2.silentCalls =
      (acquireResult tenantID env).2.1 ∧
    (get_auth tenantID env).2.interactiveCalls =
      (acquireResult tenantID env).2.2 := by
  rcases hacq : acquireResult tenantID env with ⟨r, sc, ic⟩
  rcases h1 : env.firstAttemptFails with _ | e1
  · rcases hft : finalToken r with _ | t <;>
      simp [get_auth, h1, hacq, hft]
  · rcases h2 : env.secondAttemptFails with _ | e2
    · rcases hft : finalToken r with _ | t <;>
        simp [get_auth, h1, h2, hacq, hft]
    · exact absurd ⟨by simp [h1], by simp [h2]⟩ h

/-- Helper: the fallback test holds exactly for no result, or a dict whose
`error_codes` list contains `50173`. -/
theorem needsInteractive_iff (r : PyRes) :
    needsInteractive r = true ↔
      (r = .pyNone ∨ ∃ d l, r = .pyDict d ∧ d.error_codes = some l ∧
        (50173 : Int) ∈ l) := by
  cases r with
  | pyNone => simp [needsInteractive]
  | pyStr s => simp [needsInteractive]
  | pyDict d =>
      rcases hec : d.error_codes with _ | l
      · simp [needsInteractive, hec]
      · simp [needsInteractive, hec, List.elem_iff]

/-- Helper: the interactive calls of the acquisition phase. -/
theorem acquireResult_interactive (tenantID : String) (env : GetAuthEnv) :
    (acquireResult tenantID env).2.2 =
      (if env.accounts.isEmpty then [tenantID]
       else if needsInteractive env.silent then [tenantID] else []) := by
  rcases h : env.accounts.isEmpty
  · rcases hni : needsInteractive env.silent <;>
      simp [acquireResult, h, hni]
  · simp [acquireResult, h, needsInteractive]

/-- Helper: the silent calls of the acquisition phase. -/
theorem acquireResult_silent (tenantID : String) (env : GetAuthEnv) :
    (acquireResult tenantID env).2.1 =
      (if env.accounts.isEmpty then 0 else 1) := by
  rcases h : env.accounts.isEmpty
  · rcases hni : needsInteractive env.silent <;>
      simp [acquireResult, h, hni]
  · simp [acquireResult, h, needsInteractive]

/-- C1: interactive acquisition — with the tenant id as sole domain hint —
is triggered exactly when the silent step produced no result (no account,
or `None` from the provider) or an error response whose error-code list
contains `50173`; with at least one cached account and a successful silent
response, the interactive path is never invoked. -/
theorem get_auth_interactive_iff (tenantID : String) (env : GetAuthEnv)
    (h : ¬(env.firstAttemptFails.isSome ∧ env.secondAttemptFails.isSome)) :
    ((get_auth tenantID env).2.interactiveCalls = [tenantID] ↔
      (env.accounts = [] ∨ env.silent = .pyNone ∨
        ∃ d l, env.silent = .pyDict d ∧ d.error_codes = some l ∧
          (50173 : Int) ∈ l)) ∧
    ((get_auth tenantID env).2.interactiveCalls = [] ↔
      ¬(env.accounts = [] ∨ env.silent = .pyNone ∨
        ∃ d l, env.silent = .pyDict d ∧ d.error_codes = some l ∧
          (50173 : Int) ∈ l)) ∧
    (∀ d t, env.accounts ≠ [] → env.silent = .pyDict d →
      d.access_token = some t → t ≠ "" → d.error_codes = none →
      (get_auth tenantID env).2.interactiveCalls = [] ∧
      (get_auth tenantID env).2.silentCalls = 1) := by
  obtain ⟨-, hsc, hic⟩ := get_auth_finish tenantID env h
  rw [hic, acquireResult_interactive]
  rcases hacc : env.accounts.isEmpty
  · have hacc2 : ¬(env.accounts = []) := by
      simpa [List.isEmpty_iff] using hacc
    rcases hni : needsInteractive env.silent
    · have hcond : ¬(env.silent = .pyNone ∨
          ∃ d l, env.silent = .pyDict d ∧ d.error_codes = some l ∧
            (50173 : Int) ∈ l) := by
        rw [← needsInteractive_iff]
        simp [hni]
      refine ⟨?_, ?_, ?_⟩
      · simp only [hacc, hni, Bool.false_eq_true, if_false]
        refine iff_of_false (by simp) ?_
        rintro (h1 | h1)
        · exact hacc2 h1
        · exact hcond h1
      · simp only [hacc, hni, Bool.false_eq_true, if_false]
        refine iff_of_true trivial ?_
        rintro (h1 | h1)
        · exact hacc2 h1
        · exact hcond h1
      · intro d t hne hsil hat ht hec
        refine ⟨by simp [hacc, hni], ?_⟩
        rw [hsc, acquireResult_silent]
        simp [hacc]
    · have hcond : (env.silent = .pyNone ∨
          ∃ d l, env.silent = .pyDict d ∧ d.error_codes = some l ∧
            (50173 : Int) ∈ l) := by
        rw [← needsInteractive_iff]
        exact hni
      refine ⟨?_, ?_, ?_⟩
      · simp only [hacc, hni, Bool.false_eq_true, if_false, if_true]
        exact iff_of_true trivial (Or.inr hcond)
      · simp only [hacc, hni, Bool.false_eq_true, if_false, if_true]
        refine iff_of_false (by simp) ?_
        exact fun hn => hn (Or.inr hcond)
      · intro d t hne hsil hat ht hec
        exfalso
        rcases hcond with hn | ⟨d2, l2, hd2, hec2, _⟩
        · rw [hsil] at hn
          exact PyRes.noConfusion hn
        · rw [hsil] at hd2
          cases hd2
          rw [hec] at hec2
          exact Option.noConfusion hec2
  · have hacc2 : env.accounts = [] := by
      simpa [List.isEmpty_iff] using hacc
    refine ⟨?_, ?_, ?_⟩
    · simp [hacc, hacc2]
    · simp [hacc, hacc2]
    · intro d t hne
      exact absurd hacc2 hne

/-- Witness for C1: one cached account and a successful silent response —
one silent call, no interactive call. -/
theorem get_auth_interactive_iff_witness :
    (get_auth "T" ⟨none, false, none, ["acc"],
        .pyDict ⟨some "TOK", none, 0⟩, .pyNone⟩).2.interactiveCalls = [] ∧
    (get_auth "T" ⟨none, false, none, ["acc"],
        .pyDict ⟨some "TOK", none, 0⟩, .pyNone⟩).2.silentCalls = 1 :=
  (get_auth_interactive_iff "T" ⟨none, false, none, ["acc"],
      .pyDict ⟨some "TOK", none, 0⟩, .pyNone⟩ (by simp)).2.2
    ⟨some "TOK", none, 0⟩ "TOK" (by simp) rfl rfl (by simp) rfl

/-- Counterexample for C2: one cached account, a silent error response with
error code `50126` (not `50173`) — the interactive path is not invoked at
all (zero calls, not exactly one), and `get_auth` fails. -/
theorem get_auth_other_error_counterexample :
    (get_auth "T" ⟨none, false, none, ["acc"],
        .pyDict ⟨none, some [(50126 : Int)], 0⟩,
        .pyDict ⟨some "X", none, 0⟩⟩).2.interactiveCalls = [] ∧
    ¬((get_auth "T" ⟨none, false, none, ["acc"],
        .pyDict ⟨none, some [(50126 : Int)], 0⟩,
        .pyDict ⟨some "X", none, 0⟩⟩).2.interactiveCalls.length = 1) ∧
    (get_auth "T" ⟨none, false, none, ["acc"],
        .pyDict ⟨none, some [(50126 : Int)], 0⟩,
        .pyDict ⟨some "X", none, 0⟩⟩).1
      = .authError "Failed authenticating" := by
  refine ⟨rfl, by decide, rfl⟩

/-- C2 (amended): when silent acquisition returns an error response, the
interactive path is invoked exactly once if the error-code list contains
`50173`, and is not invoked at all for any other error code — in which case
`get_auth` raises `AuthenticationError`; interactive remains the fallback
for a missing silent result. -/
theorem get_auth_error_code_fallback (tenantID : String) (env : GetAuthEnv)
    (d : MsalDict) (l : List Int)
    (h : ¬(env.firstAttemptFails.isSome ∧ env.secondAttemptFails.isSome))
    (hAcc : env.accounts ≠ [])
    (hSil : env.silent = .pyDict d)
    (hAT : d.access_token = none)
    (hCodes : d.error_codes = some l) :
    ((50173 : Int) ∈ l →
      (get_auth tenantID env).2.interactiveCalls = [tenantID]) ∧
    ((50173 : Int) ∉ l →
      (get_auth tenantID env).2.interactiveCalls = [] ∧
      (get_auth tenantID env).1 = .authError "Failed authenticating") := by
  obtain ⟨hout, hsc, hic⟩ := get_auth_finish tenantID env h
  have hacc : env.accounts.isEmpty = false := by
    simp [List.isEmpty_iff, hAcc]
  constructor
  · intro hmem
    have hni : needsInteractive env.silent = true :=
      (needsInteractive_iff env.silent).mpr
        (Or.inr ⟨d, l, hSil, hCodes, hmem⟩)
    rw [hic, acquireResult_interactive]
    simp [hacc, hni]
  · intro hmem
    have hni : needsInteractive env.silent = false := by
      rcases hni2 : needsInteractive env.silent
      · rfl
      · exfalso
        rcases (needsInteractive_iff env.silent).mp hni2 with hn |
            ⟨d2, l2, hd2, hec2, hm2⟩
        · rw [hSil] at hn
          exact PyRes.noConfusion hn
        · rw [hSil] at hd2
          cases hd2
          rw [hCodes] at hec2
          cases hec2
          exact hmem hm2
    have hni2 : needsInteractive (PyRes.pyDict d) = false := hSil ▸ hni
    have hres : (acquireResult tenantID env).1 = .pyDict d := by
      simp [acquireResult, hacc, hSil, hni2]
    refine ⟨?_, ?_⟩
    · rw [hic, acquireResult_interactive]
      simp [hacc, hni]
    · rw [hout, hres]
      have : finalToken (PyRes.pyDict d) = none := by
        rcases h2 : d.truthy <;> simp [finalToken, hAT, h2]
      rw [this]

/-- Witness for C2 (amended): error code `50173` in the list triggers one
interactive call carrying the tenant id. -/
theorem get_auth_error_code_fallback_witness :
    (get_auth "T" ⟨none, false, none, ["acc"],
        .pyDict ⟨none, some [(50173 : Int)], 0⟩,
        .pyDict ⟨some "X", none, 0⟩⟩).2.interactiveCalls = ["T"] :=
  (get_auth_error_code_fallback "T" ⟨none, false, none, ["acc"],
      .pyDict ⟨none, some [(50173 : Int)], 0⟩, .pyDict ⟨some "X", none, 0⟩⟩
    ⟨none, some [(50173 : Int)], 0⟩ [(50173 : Int)] (by simp) (by simp)
    rfl rfl rfl).1 (by decide)

/-- Counterexample for C3: both cache attempts fail — the second failure
propagates as the raised underlying exception, which is not
`AuthenticationError("Failed authenticating")` (still: the file was deleted
and exactly two open attempts were made). -/
theorem get_auth_second_failure_counterexample :
    (get_auth "T" ⟨some "decrypt error", true, some "decrypt error again",
        [], .pyNone, .pyNone⟩).1 = .raised "decrypt error again" ∧
    ¬((get_auth "T" ⟨some "decrypt error", true, some "decrypt error again",
        [], .pyNone, .pyNone⟩).1 = .authError "Failed authenticating") ∧
    (get_auth "T" ⟨some "decrypt error", true, some "decrypt error again",
        [], .pyNone, .pyNone⟩).2 = ⟨2, true, 0, []⟩ := by
  refine ⟨rfl, by decide, rfl⟩

/-- C3 (amended): if the first attempt to open the cache and list accounts
raises, the cache file is deleted exactly when it exists on disk
(best-effort), and exactly one second attempt is made; a failure of that
second attempt propagates to the caller as the original exception,
unchanged, with nothing further attempted. -/
theorem get_auth_cache_retry (tenantID : String) (env : GetAuthEnv)
    (e1 : String) (h1 : env.firstAttemptFails = some e1) :
    ((get_auth tenantID env).2.openAttempts = 2) ∧
    ((get_auth tenantID env).2.deletedCacheFile = env.cacheFileExists) ∧
    (∀ e2, env.secondAttemptFails = some e2 →
      get_auth tenantID env =
        (.raised e2, ⟨2, env.cacheFileExists, 0, []⟩)) := by
  rcases h2 : env.secondAttemptFails with _ | e2
  · rcases hacq : acquireResult tenantID env with ⟨r, sc, ic⟩
    rcases hft : finalToken r with _ | t <;>
      simp [get_auth, h1, h2, hacq, hft]
  · refine ⟨?_, ?_, ?_⟩ <;> simp [get_auth, h1, h2]

/-- Witness for C3 (amended): a concrete run in which both attempts fail
with distinct payloads; the second payload is what propagates. -/
theorem get_auth_cache_retry_witness :
    get_auth "T" ⟨some "e1", false, some "e2", [], .pyNone, .pyNone⟩ =
      (.raised "e2", ⟨2, false, 0, []⟩) :=
  (get_auth_cache_retry "T"
    ⟨some "e1", false, some "e2", [], .pyNone, .pyNone⟩ "e1" rfl).2.2 "e2" rfl

/-- C4: once a final acquisition result exists (no double cache failure),
`get_auth` returns a carrier exactly when that result is a dict with a
non-empty `access_token` value, the carrier wraps exactly that string, and
in every other case it raises `AuthenticationError("Failed
authenticating")`. -/
theorem get_auth_success_iff (tenantID : String) (env : GetAuthEnv)
    (h : ¬(env.firstAttemptFails.isSome ∧ env.secondAttemptFails.isSome)) :
    (∀ d t, (acquireResult tenantID env).1 = .pyDict d →
      d.access_token = some t → t ≠ "" →
      (get_auth tenantID env).1 = .ok ⟨.fVal (.pstr t)⟩) ∧
    (∀ b, (get_auth tenantID env).1 = .ok b →
      ∃ d t, (acquireResult tenantID env).1 = .pyDict d ∧
        d.access_token = some t ∧ t ≠ "" ∧ b = ⟨.fVal (.pstr t)⟩) ∧
    ((∀ d t, ¬((acquireResult tenantID env).1 = .pyDict d ∧
        d.access_token = some t ∧ t ≠ "")) →
      (get_auth tenantID env).1 = .authError "Failed authenticating") := by
  obtain ⟨hout, -, -⟩ := get_auth_finish tenantID env h
  refine ⟨?_, ?_, ?_⟩
  · intro d t hres hat ht
    have hft : finalToken (acquireResult tenantID env).1 = some t :=
      (finalToken_eq_some _ t).mpr ⟨d, hres, hat, ht⟩
    rw [hout, hft]
    rfl
  · intro b hb
    rcases hft : finalToken (acquireResult tenantID env).1 with _ | t
    · rw [hout, hft] at hb
      exact GetAuthOutcome.noConfusion hb
    · obtain ⟨d, hres, hat, ht⟩ := (finalToken_eq_some _ t).mp hft
      refine ⟨d, t, hres, hat, ht, ?_⟩
      rw [hout, hft] at hb
      cases hb
      rfl
  · intro hnone
    rcases hft : finalToken (acquireResult tenantID env).1 with _ | t
    · rw [hout, hft]
    · obtain ⟨d, hres, hat, ht⟩ := (finalToken_eq_some _ t).mp hft
      exact absurd ⟨hres, hat, ht⟩ (hnone d t)

/-- Witness for C4: an empty cache and an interactive response with
`access_token = "XYZ"` yields a carrier wrapping exactly `"XYZ"`. -/
theorem get_auth_success_iff_witness :
    (get_auth "T" ⟨none, false, none, [], .pyNone,
        .pyDict ⟨some "XYZ", none, 0⟩⟩).1 = .ok ⟨.fVal (.pstr "XYZ")⟩ :=
  (get_auth_success_iff "T" ⟨none, false, none, [], .pyNone,
      .pyDict ⟨some "XYZ", none, 0⟩⟩ (by simp)).1
    ⟨some "XYZ", none, 0⟩ "XYZ" rfl rfl (by decide)

end MsalBearer
